import Mathlib

/-!
Verification of the AttendMate attendance tracker (Express/Mongoose app).

The core of the repository is the pure function `calculateAttendance`
(server file, lines 37-74) together with the `POST /api/subjects` handler
(lines 96-122).  We shallowly embed both here.

JavaScript numbers are modelled as exact rationals extended with the
special values `Infinity`, `-Infinity` and `NaN` (`JsNum`): the divisions
inside `calculateAttendance` can have a zero denominator (required percent
of 0 or 100), in which case JavaScript produces a non-finite value, and
several claims are about exactly that behaviour.  Finite arithmetic is
idealised as exact rational arithmetic.
-/

/-- A JavaScript number: a finite value (idealised as an exact rational),
positive or negative infinity, or NaN. -/
inductive JsNum where
  | fin (q : ℚ)
  | inf
  | ninf
  | nan
deriving DecidableEq, Repr

/-- JavaScript division `a / b` of finite operands: a zero denominator
yields `NaN` for `0 / 0` and a signed infinity otherwise (rationals have
no negative zero, and every denominator reaching this operation in the
embedded code is an exactly computed rational). -/
def jsDiv (a b : ℚ) : JsNum :=
  if b = 0 then
    if a = 0 then JsNum.nan
    else if 0 < a then JsNum.inf
    else JsNum.ninf
  else JsNum.fin (a / b)

/-- `Math.floor`: identity on `Infinity`, `-Infinity` and `NaN`. -/
def jsFloor : JsNum → JsNum
  | JsNum.fin q => JsNum.fin (⌊q⌋ : ℚ)
  | x => x

/-- `Math.ceil`: identity on `Infinity`, `-Infinity` and `NaN`. -/
def jsCeil : JsNum → JsNum
  | JsNum.fin q => JsNum.fin (⌈q⌉ : ℚ)
  | x => x

/-- The JavaScript comparison `x > 0`: false on `NaN` and `-Infinity`,
true on `Infinity`. -/
def jsGtZero : JsNum → Bool
  | JsNum.fin q => decide (0 < q)
  | JsNum.inf => true
  | JsNum.ninf => false
  | JsNum.nan => false

/-- The clamp `x > 0 ? x : 0` used on both branch results. -/
def jsClampPos (x : JsNum) : JsNum :=
  if jsGtZero x then x else JsNum.fin 0

/-- `Number(x.toFixed(2))` on a finite value: round to two decimal places,
ties towards the larger candidate (the ECMAScript `toFixed` rule). -/
def toFixed2 (q : ℚ) : ℚ := (⌊q * 100 + 1 / 2⌋ : ℚ) / 100

/-- Decimal rendering of a number inside a template string.  Finite
values are abstracted by the `Rat` printer; the special values use the
JavaScript spellings. -/
def jsNumToStr : JsNum → String
  | JsNum.fin q => toString q
  | JsNum.inf => "Infinity"
  | JsNum.ninf => "-Infinity"
  | JsNum.nan => "NaN"

/-- The record returned by `calculateAttendance`. -/
structure AttendanceStats where
  currentPercent : ℚ
  canBunk : JsNum
  needToAttend : JsNum
  message : String
deriving DecidableEq, Repr

/-- Shallow embedding of `calculateAttendance(attended, total,
requiredPercent)` (server file, lines 37-74).  The three arguments are
already numbers, so the `Number(...)` coercions are identities. -/
def calculateAttendance (attended total requiredPercent : ℚ) :
    AttendanceStats :=
  if total ≤ 0 then
    { currentPercent := 0
      canBunk := JsNum.fin 0
      needToAttend := JsNum.fin 0
      message := "No classes conducted yet." }
  else
    let r := requiredPercent / 100
    let currentPercent := attended / total * 100
    let canBunk :=
      if currentPercent ≥ requiredPercent then
        jsClampPos (jsFloor (jsDiv (attended - r * total) r))
      else JsNum.fin 0
    let needToAttend :=
      if currentPercent ≥ requiredPercent then JsNum.fin 0
      else jsClampPos (jsCeil (jsDiv (r * total - attended) (1 - r)))
    { currentPercent := toFixed2 currentPercent
      canBunk := canBunk
      needToAttend := needToAttend
      message :=
        if currentPercent ≥ requiredPercent then
          "You are safe. You can bunk around " ++ jsNumToStr canBunk ++
            " classes."
        else
          "You need to attend around " ++ jsNumToStr needToAttend ++
            " more classes to reach " ++ toString requiredPercent ++ "%." }

/-! Evaluation lemmas for the two branches of `calculateAttendance`. -/

lemma jsClampPos_floor_div (a b : ℚ) (hb : b ≠ 0) :
    jsClampPos (jsFloor (jsDiv a b)) = JsNum.fin ((max 0 ⌊a / b⌋ : ℤ) : ℚ) := by
  rw [jsDiv, if_neg hb]
  show jsClampPos (JsNum.fin (⌊a / b⌋ : ℚ)) = _
  by_cases h : (0:ℚ) < (⌊a / b⌋ : ℚ)
  · have hz : (0:ℤ) < ⌊a / b⌋ := by exact_mod_cast h
    simp [jsClampPos, jsGtZero, h, max_eq_right hz.le]
  · have hz : ⌊a / b⌋ ≤ 0 := by exact_mod_cast not_lt.mp h
    simp [jsClampPos, jsGtZero, h, max_eq_left hz]

lemma jsClampPos_ceil_div (a b : ℚ) (hb : b ≠ 0) :
    jsClampPos (jsCeil (jsDiv a b)) = JsNum.fin ((max 0 ⌈a / b⌉ : ℤ) : ℚ) := by
  rw [jsDiv, if_neg hb]
  show jsClampPos (JsNum.fin (⌈a / b⌉ : ℚ)) = _
  by_cases h : (0:ℚ) < (⌈a / b⌉ : ℚ)
  · have hz : (0:ℤ) < ⌈a / b⌉ := by exact_mod_cast h
    simp [jsClampPos, jsGtZero, h, max_eq_right hz.le]
  · have hz : ⌈a / b⌉ ≤ 0 := by exact_mod_cast not_lt.mp h
    simp [jsClampPos, jsGtZero, h, max_eq_left hz]

lemma calculateAttendance_safe_eval (a t p : ℚ) (ht : 0 < t)
    (hsafe : a / t * 100 ≥ p) :
    calculateAttendance a t p =
      { currentPercent := toFixed2 (a / t * 100)
        canBunk := jsClampPos (jsFloor (jsDiv (a - p / 100 * t) (p / 100)))
        needToAttend := JsNum.fin 0
        message := "You are safe. You can bunk around " ++
          jsNumToStr
            (jsClampPos (jsFloor (jsDiv (a - p / 100 * t) (p / 100)))) ++
          " classes." } := by
  simp only [calculateAttendance, ge_iff_le, eq_false (not_le.mpr ht),
    eq_true hsafe, if_true, if_false]

lemma calculateAttendance_unsafe_eval (a t p : ℚ) (ht : 0 < t)
    (hun : a / t * 100 < p) :
    calculateAttendance a t p =
      { currentPercent := toFixed2 (a / t * 100)
        canBunk := JsNum.fin 0
        needToAttend :=
          jsClampPos (jsCeil (jsDiv (p / 100 * t - a) (1 - p / 100)))
        message := "You need to attend around " ++
          jsNumToStr
            (jsClampPos (jsCeil (jsDiv (p / 100 * t - a) (1 - p / 100)))) ++
          " more classes to reach " ++ toString p ++ "%." } := by
  simp only [calculateAttendance, ge_iff_le, eq_false (not_le.mpr ht),
    eq_false (not_le.mpr hun), if_true, if_false]

/-- The branch test `attended/total*100 >= requiredPercent` is equivalent to
`attended >= r * total` with `r = requiredPercent/100`, when `total > 0`. -/
lemma safe_iff (a t p : ℚ) (ht : 0 < t) :
    p ≤ a / t * 100 ↔ p / 100 * t ≤ a := by
  rw [div_mul_eq_mul_div, le_div_iff ht, div_mul_eq_mul_div,
    div_le_iff (show (0:ℚ) < 100 by norm_num)]

lemma unsafe_iff (a t p : ℚ) (ht : 0 < t) :
    a / t * 100 < p ↔ a < p / 100 * t :=
  lt_iff_lt_of_le_iff_le (safe_iff a t p ht)

example :
    (calculateAttendance 80 100 75).canBunk = JsNum.fin 6 := by
  norm_num [calculateAttendance, jsDiv, jsFloor, jsClampPos, jsGtZero]

example :
    (calculateAttendance 50 100 75).needToAttend = JsNum.fin 100 := by
  norm_num [calculateAttendance, jsDiv, jsCeil, jsClampPos, jsGtZero]

example :
    (calculateAttendance 75 100 75).canBunk = JsNum.fin 0 := by
  norm_num [calculateAttendance, jsDiv, jsFloor, jsClampPos, jsGtZero]

example :
    (calculateAttendance 0 1 100).needToAttend = JsNum.inf := by
  norm_num [calculateAttendance, jsDiv, jsCeil, jsClampPos, jsGtZero]

example :
    (calculateAttendance 3 4 74).canBunk = JsNum.fin 0 ∧
    (calculateAttendance 3 4 74).needToAttend = JsNum.fin 0 := by
  norm_num [calculateAttendance, jsDiv, jsFloor, jsClampPos, jsGtZero]

/-- C1: in the safe branch (`total > 0`, `0 ≤ attended ≤ total`,
`0 < requiredPercent ≤ 100`, `attended/total*100 ≥ requiredPercent`),
`calculateAttendance` returns `needToAttend = 0` and
`canBunk = max 0 ⌊(attended - r*total)/r⌋` with `r = requiredPercent/100`,
and this value is the greatest integer `n ≥ 0` with
`attended/(total+n) ≥ r`. -/
theorem safe_branch_canBunk_greatest (a t p : ℚ) (ht : 0 < t) (ha : 0 ≤ a)
    (hat : a ≤ t) (hp0 : 0 < p) (hp100 : p ≤ 100)
    (hsafe : a / t * 100 ≥ p) :
    (calculateAttendance a t p).needToAttend = JsNum.fin 0 ∧
    (calculateAttendance a t p).canBunk =
      JsNum.fin ((max 0 ⌊(a - p / 100 * t) / (p / 100)⌋ : ℤ) : ℚ) ∧
    ∀ n : ℤ, 0 ≤ n →
      (p / 100 ≤ a / (t + n) ↔
        n ≤ max 0 ⌊(a - p / 100 * t) / (p / 100)⌋) := by
  have hr : (0:ℚ) < p / 100 := by positivity
  have hsafe' : p / 100 * t ≤ a := (safe_iff a t p ht).mp hsafe
  have heval := calculateAttendance_safe_eval a t p ht hsafe
  refine ⟨by rw [heval], ?_, ?_⟩
  · rw [heval]
    exact jsClampPos_floor_div _ _ (ne_of_gt hr)
  · intro n hn
    have hnq : (0:ℚ) ≤ (n:ℚ) := by exact_mod_cast hn
    have htn : (0:ℚ) < t + n := by linarith
    have h0 : 0 ≤ (a - p / 100 * t) / (p / 100) :=
      div_nonneg (by linarith) hr.le
    have hfl : (0:ℤ) ≤ ⌊(a - p / 100 * t) / (p / 100)⌋ :=
      Int.floor_nonneg.mpr h0
    rw [max_eq_right hfl, le_div_iff htn, Int.le_floor, le_div_iff hr]
    constructor <;> intro h <;> nlinarith [h]

/-- Witness for `safe_branch_canBunk_greatest` at
`attended = 80`, `total = 100`, `requiredPercent = 75`. -/
theorem safe_branch_canBunk_greatest_witness :
    (calculateAttendance 80 100 75).needToAttend = JsNum.fin 0 ∧
    (calculateAttendance 80 100 75).canBunk =
      JsNum.fin ((max 0 ⌊((80:ℚ) - 75 / 100 * 100) / (75 / 100)⌋ : ℤ) : ℚ) ∧
    ∀ n : ℤ, 0 ≤ n →
      ((75:ℚ) / 100 ≤ 80 / (100 + n) ↔
        n ≤ max 0 ⌊((80:ℚ) - 75 / 100 * 100) / (75 / 100)⌋) :=
  safe_branch_canBunk_greatest 80 100 75 (by norm_num) (by norm_num)
    (by norm_num) (by norm_num) (by norm_num) (by norm_num)

/-- C2: in the unsafe branch (`total > 0`, `0 ≤ attended ≤ total`,
`0 < requiredPercent < 100`, `attended/total*100 < requiredPercent`),
`calculateAttendance` returns `canBunk = 0` and
`needToAttend = max 0 ⌈(r*total - attended)/(1 - r)⌉` with
`r = requiredPercent/100`, and this value is the least integer `x ≥ 0` with
`(attended+x)/(total+x) ≥ r`. -/
theorem unsafe_branch_needToAttend_least (a t p : ℚ) (ht : 0 < t)
    (ha : 0 ≤ a) (hat : a ≤ t) (hp0 : 0 < p) (hp100 : p < 100)
    (hun : a / t * 100 < p) :
    (calculateAttendance a t p).canBunk = JsNum.fin 0 ∧
    (calculateAttendance a t p).needToAttend =
      JsNum.fin ((max 0 ⌈(p / 100 * t - a) / (1 - p / 100)⌉ : ℤ) : ℚ) ∧
    ∀ x : ℤ, 0 ≤ x →
      (p / 100 ≤ (a + x) / (t + x) ↔
        max 0 ⌈(p / 100 * t - a) / (1 - p / 100)⌉ ≤ x) := by
  have hr1 : (0:ℚ) < 1 - p / 100 := by linarith
  have hun' : a < p / 100 * t := (unsafe_iff a t p ht).mp hun
  have heval := calculateAttendance_unsafe_eval a t p ht hun
  refine ⟨by rw [heval], ?_, ?_⟩
  · rw [heval]
    exact jsClampPos_ceil_div _ _ (ne_of_gt hr1)
  · intro x hx
    have hxq : (0:ℚ) ≤ (x:ℚ) := by exact_mod_cast hx
    have htx : (0:ℚ) < t + x := by linarith
    have h0 : 0 < (p / 100 * t - a) / (1 - p / 100) :=
      div_pos (by linarith) hr1
    have hcl : (0:ℤ) ≤ ⌈(p / 100 * t - a) / (1 - p / 100)⌉ :=
      (Int.ceil_pos.mpr h0).le
    rw [max_eq_right hcl, le_div_iff htx, Int.ceil_le, div_le_iff hr1]
    constructor <;> intro h <;> nlinarith [h]

/-- Witness for `unsafe_branch_needToAttend_least` at
`attended = 50`, `total = 100`, `requiredPercent = 75`. -/
theorem unsafe_branch_needToAttend_least_witness :
    (calculateAttendance 50 100 75).canBunk = JsNum.fin 0 ∧
    (calculateAttendance 50 100 75).needToAttend =
      JsNum.fin
        ((max 0 ⌈((75:ℚ) / 100 * 100 - 50) / (1 - 75 / 100)⌉ : ℤ) : ℚ) ∧
    ∀ x : ℤ, 0 ≤ x →
      ((75:ℚ) / 100 ≤ (50 + x) / (100 + x) ↔
        max 0 ⌈((75:ℚ) / 100 * 100 - 50) / (1 - 75 / 100)⌉ ≤ x) :=
  unsafe_branch_needToAttend_least 50 100 75 (by norm_num) (by norm_num)
    (by norm_num) (by norm_num) (by norm_num) (by norm_num)

lemma cast_max_toNat (k : ℤ) :
    ((max 0 k : ℤ) : ℚ) = (((max 0 k).toNat : ℕ) : ℚ) := by
  have h := Int.toNat_of_nonneg (le_max_left 0 k)
  exact_mod_cast h.symm

lemma toFixed2_bounds (x : ℚ) (h0 : 0 ≤ x) (h100 : x ≤ 100) :
    0 ≤ toFixed2 x ∧ toFixed2 x ≤ 100 := by
  unfold toFixed2
  constructor
  · apply div_nonneg _ (by norm_num : (0:ℚ) ≤ 100)
    have h : (0:ℤ) ≤ ⌊x * 100 + 1 / 2⌋ := Int.floor_nonneg.mpr (by linarith)
    exact_mod_cast h
  · rw [div_le_iff (show (0:ℚ) < 100 by norm_num)]
    have h1 : ⌊x * 100 + 1 / 2⌋ ≤ ⌊(10000:ℚ) + 1 / 2⌋ :=
      Int.floor_le_floor (by linarith)
    have h2 : ⌊(10000:ℚ) + 1 / 2⌋ = 10000 := by norm_num
    have h3 : ⌊x * 100 + 1 / 2⌋ ≤ 10000 := h2 ▸ h1
    calc ((⌊x * 100 + 1 / 2⌋ : ℤ) : ℚ) ≤ 10000 := by exact_mod_cast h3
      _ = 100 * 100 := by norm_num

/-- C3: when `total ≤ 0`, `calculateAttendance` returns exactly the zeroed
record with message `"No classes conducted yet."`, and this is the only
short-circuit: for any positive total the returned message is different
(so the zero-total path is the sole early return). -/
theorem zero_total_short_circuit (a t p : ℚ) (ht : t ≤ 0) :
    calculateAttendance a t p =
      { currentPercent := 0
        canBunk := JsNum.fin 0
        needToAttend := JsNum.fin 0
        message := "No classes conducted yet." } ∧
    ∀ t2 : ℚ, 0 < t2 →
      (calculateAttendance a t2 p).message ≠ "No classes conducted yet." := by
  constructor
  · rw [calculateAttendance, if_pos ht]
  · intro t2 ht2
    by_cases hsafe : a / t2 * 100 ≥ p
    · rw [calculateAttendance_safe_eval a t2 p ht2 hsafe]
      intro h
      have h2 := congrArg String.length h
      have e1 : ("You are safe. You can bunk around ").length = 34 := by rfl
      have e2 : (" classes.").length = 9 := by rfl
      have e3 : ("No classes conducted yet.").length = 25 := by rfl
      simp [String.length_append, e1, e2, e3] at h2
      omega
    · rw [calculateAttendance_unsafe_eval a t2 p ht2 (not_le.mp hsafe)]
      intro h
      have h2 := congrArg String.length h
      have e1 : ("You need to attend around ").length = 26 := by rfl
      have e2 : (" more classes to reach ").length = 23 := by rfl
      have e3 : ("%.").length = 2 := by rfl
      have e4 : ("No classes conducted yet.").length = 25 := by rfl
      simp [String.length_append, e1, e2, e3, e4] at h2
      omega

/-- Witness for `zero_total_short_circuit` at `attended = 5`, `total = 0`,
`requiredPercent = 75`. -/
theorem zero_total_short_circuit_witness :
    calculateAttendance 5 0 75 =
      { currentPercent := 0
        canBunk := JsNum.fin 0
        needToAttend := JsNum.fin 0
        message := "No classes conducted yet." } ∧
    ∀ t2 : ℚ, 0 < t2 →
      (calculateAttendance 5 t2 75).message ≠ "No classes conducted yet." :=
  zero_total_short_circuit 5 0 75 (by norm_num)

/-- C4 as stated is false: at `attended = 0`, `total = 1`,
`requiredPercent = 100` the unsafe branch divides by `1 - 1 = 0` and
`needToAttend` is `Infinity`, not a non-negative integer. -/
theorem outputs_nonneg_integers_counterexample :
    (calculateAttendance 0 1 100).needToAttend = JsNum.inf := by
  norm_num [calculateAttendance, jsDiv, jsCeil, jsClampPos, jsGtZero]

/-- C4 amended: for every input at least one of `canBunk`/`needToAttend`
is 0; when `0 < requiredPercent < 100` both are finite non-negative
integers; and under `0 ≤ attended ≤ total`, `total > 0` the returned
`currentPercent` lies in `[0, 100]`. -/
theorem outputs_nonneg_integers_amended (a t p : ℚ) :
    ((calculateAttendance a t p).canBunk = JsNum.fin 0 ∨
      (calculateAttendance a t p).needToAttend = JsNum.fin 0) ∧
    (0 < p → p < 100 →
      (∃ n : ℕ, (calculateAttendance a t p).canBunk = JsNum.fin n) ∧
      ∃ m : ℕ, (calculateAttendance a t p).needToAttend = JsNum.fin m) ∧
    (0 ≤ a → a ≤ t → 0 < t →
      0 ≤ (calculateAttendance a t p).currentPercent ∧
      (calculateAttendance a t p).currentPercent ≤ 100) := by
  by_cases ht : 0 < t
  · by_cases hsafe : a / t * 100 ≥ p
    · rw [calculateAttendance_safe_eval a t p ht hsafe]
      refine ⟨Or.inr rfl, fun hp0 _ => ?_, fun ha hat _ => ?_⟩
      · have hr : (0:ℚ) < p / 100 := by positivity
        refine ⟨⟨(max 0 ⌊(a - p / 100 * t) / (p / 100)⌋).toNat, ?_⟩, 0,
          by norm_num⟩
        show jsClampPos (jsFloor (jsDiv (a - p / 100 * t) (p / 100))) = _
        rw [jsClampPos_floor_div _ _ (ne_of_gt hr), cast_max_toNat]
      · show 0 ≤ toFixed2 (a / t * 100) ∧ toFixed2 (a / t * 100) ≤ 100
        apply toFixed2_bounds
        · positivity
        · have h1 : a / t ≤ 1 := (div_le_one ht).mpr hat
          linarith
    · rw [calculateAttendance_unsafe_eval a t p ht (not_le.mp hsafe)]
      refine ⟨Or.inl rfl, fun _ hp100 => ?_, fun ha hat _ => ?_⟩
      · have hr1 : (0:ℚ) < 1 - p / 100 := by linarith
        refine ⟨⟨0, by norm_num⟩,
          (max 0 ⌈(p / 100 * t - a) / (1 - p / 100)⌉).toNat, ?_⟩
        show jsClampPos (jsCeil (jsDiv (p / 100 * t - a) (1 - p / 100))) = _
        rw [jsClampPos_ceil_div _ _ (ne_of_gt hr1), cast_max_toNat]
      · show 0 ≤ toFixed2 (a / t * 100) ∧ toFixed2 (a / t * 100) ≤ 100
        apply toFixed2_bounds
        · positivity
        · have h1 : a / t ≤ 1 := (div_le_one ht).mpr hat
          linarith
  · rw [calculateAttendance, if_pos (not_lt.mp ht)]
    exact ⟨Or.inl rfl, fun _ _ => ⟨⟨0, by norm_num⟩, 0, by norm_num⟩,
      fun _ _ h0t => absurd h0t ht⟩

/-- Witness for `outputs_nonneg_integers_amended` at `attended = 80`,
`total = 100`, `requiredPercent = 75`. -/
theorem outputs_nonneg_integers_amended_witness :
    ((calculateAttendance 80 100 75).canBunk = JsNum.fin 0 ∨
      (calculateAttendance 80 100 75).needToAttend = JsNum.fin 0) ∧
    ((∃ n : ℕ, (calculateAttendance 80 100 75).canBunk = JsNum.fin n) ∧
      ∃ m : ℕ, (calculateAttendance 80 100 75).needToAttend = JsNum.fin m) ∧
    (0 ≤ (calculateAttendance 80 100 75).currentPercent ∧
      (calculateAttendance 80 100 75).currentPercent ≤ 100) :=
  ⟨(outputs_nonneg_integers_amended 80 100 75).1,
    (outputs_nonneg_integers_amended 80 100 75).2.1 (by norm_num) (by norm_num),
    (outputs_nonneg_integers_amended 80 100 75).2.2 (by norm_num) (by norm_num)
      (by norm_num)⟩

/-- C5: when `requiredPercent = 100` and the unsafe branch is taken
(`attended < total`, `total > 0`), the denominator `1 - r` is zero and the
unguarded division makes `needToAttend` the non-finite value `Infinity`. -/
theorem requiredPercent_hundred_infinity (a t : ℚ) (ht : 0 < t)
    (hat : a < t) :
    1 - (100:ℚ) / 100 = 0 ∧
    (calculateAttendance a t 100).needToAttend = JsNum.inf := by
  refine ⟨by norm_num, ?_⟩
  have hun : a / t * 100 < 100 := by
    rw [unsafe_iff a t 100 ht]
    have h : (100:ℚ) / 100 * t = t := by norm_num
    rw [h]; exact hat
  rw [calculateAttendance_unsafe_eval a t 100 ht hun]
  have h1 : (1:ℚ) - 100 / 100 = 0 := by norm_num
  have h3 : (0:ℚ) < 100 / 100 * t - a := by
    have h : (100:ℚ) / 100 * t - a = t - a := by ring
    rw [h]; linarith
  show jsClampPos (jsCeil (jsDiv (100 / 100 * t - a) (1 - 100 / 100))) =
    JsNum.inf
  rw [h1, jsDiv, if_pos rfl, if_neg (ne_of_gt h3), if_pos h3]
  rfl

/-- Witness for `requiredPercent_hundred_infinity` at `attended = 0`,
`total = 1`. -/
theorem requiredPercent_hundred_infinity_witness :
    1 - (100:ℚ) / 100 = 0 ∧
    (calculateAttendance 0 1 100).needToAttend = JsNum.inf :=
  requiredPercent_hundred_infinity 0 1 (by norm_num) (by norm_num)

lemma canBunk_safe_val (a t p : ℚ) (ht : 0 < t) (hp0 : 0 < p)
    (hsafe : a / t * 100 ≥ p) :
    (calculateAttendance a t p).canBunk =
      JsNum.fin (((max 0 ⌊(a - p / 100 * t) / (p / 100)⌋).toNat : ℕ) : ℚ) := by
  rw [calculateAttendance_safe_eval a t p ht hsafe]
  show jsClampPos (jsFloor (jsDiv (a - p / 100 * t) (p / 100))) = _
  rw [jsClampPos_floor_div _ _
    (ne_of_gt (show (0:ℚ) < p / 100 by positivity)), cast_max_toNat]

lemma need_unsafe_val (a t p : ℚ) (ht : 0 < t) (hp100 : p < 100)
    (hun : a / t * 100 < p) :
    (calculateAttendance a t p).needToAttend =
      JsNum.fin
        (((max 0 ⌈(p / 100 * t - a) / (1 - p / 100)⌉).toNat : ℕ) : ℚ) := by
  rw [calculateAttendance_unsafe_eval a t p ht hun]
  show jsClampPos (jsCeil (jsDiv (p / 100 * t - a) (1 - p / 100))) = _
  rw [jsClampPos_ceil_div _ _
    (ne_of_gt (show (0:ℚ) < 1 - p / 100 by linarith)), cast_max_toNat]

/-- C6 as stated is false: at `attended = 3`, `total = 4`,
`requiredPercent = 74` the subject is strictly above threshold
(`75 ≠ 74`) yet both `canBunk` and `needToAttend` are 0. -/
theorem exactly_one_positive_counterexample :
    (calculateAttendance 3 4 74).canBunk = JsNum.fin 0 ∧
    (calculateAttendance 3 4 74).needToAttend = JsNum.fin 0 ∧
    (3:ℚ) / 4 * 100 ≠ 74 := by
  norm_num [calculateAttendance, jsDiv, jsFloor, jsClampPos, jsGtZero]

/-- C6 amended: with `total > 0`, `0 ≤ attended ≤ total`,
`0 < requiredPercent < 100` and `r = requiredPercent/100`: strictly below
threshold `needToAttend > 0` and `canBunk = 0`; in the safe branch with
`attended < r*(total+1)` (at or just above threshold, not enough slack to
skip one class) both are 0; and when `r*(total+1) ≤ attended` `canBunk > 0`
and `needToAttend = 0`. -/
theorem exactly_one_positive_amended (a t p : ℚ) (ht : 0 < t) (ha : 0 ≤ a)
    (hat : a ≤ t) (hp0 : 0 < p) (hp100 : p < 100) :
    (a / t * 100 < p →
      (∃ k : ℕ, 0 < k ∧
        (calculateAttendance a t p).needToAttend = JsNum.fin k) ∧
      (calculateAttendance a t p).canBunk = JsNum.fin 0) ∧
    (p ≤ a / t * 100 → a < p / 100 * (t + 1) →
      (calculateAttendance a t p).canBunk = JsNum.fin 0 ∧
      (calculateAttendance a t p).needToAttend = JsNum.fin 0) ∧
    (p / 100 * (t + 1) ≤ a →
      (∃ k : ℕ, 0 < k ∧
        (calculateAttendance a t p).canBunk = JsNum.fin k) ∧
      (calculateAttendance a t p).needToAttend = JsNum.fin 0) := by
  have hr : (0:ℚ) < p / 100 := by positivity
  have hr1 : (0:ℚ) < 1 - p / 100 := by linarith
  refine ⟨fun hun => ?_, fun hsafe hlt => ?_, fun hge => ?_⟩
  · have hun' : a < p / 100 * t := (unsafe_iff a t p ht).mp hun
    have hX : (0:ℚ) < (p / 100 * t - a) / (1 - p / 100) :=
      div_pos (by linarith) hr1
    have hc : (0:ℤ) < ⌈(p / 100 * t - a) / (1 - p / 100)⌉ :=
      Int.ceil_pos.mpr hX
    refine ⟨⟨(max 0 ⌈(p / 100 * t - a) / (1 - p / 100)⌉).toNat, ?_,
      need_unsafe_val a t p ht hp100 hun⟩, ?_⟩
    · rw [max_eq_right hc.le]; omega
    · rw [calculateAttendance_unsafe_eval a t p ht hun]
  · have hsafe' : p / 100 * t ≤ a := (safe_iff a t p ht).mp hsafe
    have hexp : p / 100 * (t + 1) = p / 100 * t + p / 100 := by ring
    have hX0 : 0 ≤ (a - p / 100 * t) / (p / 100) :=
      div_nonneg (by linarith) hr.le
    have hX1 : (a - p / 100 * t) / (p / 100) < 1 := by
      rw [div_lt_one hr]; linarith
    have hfl : ⌊(a - p / 100 * t) / (p / 100)⌋ = 0 := by
      rw [Int.floor_eq_zero_iff]
      exact Set.mem_Ico.mpr ⟨hX0, hX1⟩
    constructor
    · rw [canBunk_safe_val a t p ht hp0 hsafe, hfl]
      norm_num
    · rw [calculateAttendance_safe_eval a t p ht hsafe]
  · have hexp : p / 100 * (t + 1) = p / 100 * t + p / 100 := by ring
    have hsafe' : p / 100 * t ≤ a := by linarith
    have hsafe : a / t * 100 ≥ p := (safe_iff a t p ht).mpr hsafe'
    have hX1 : 1 ≤ (a - p / 100 * t) / (p / 100) := by
      rw [le_div_iff hr]; linarith
    have hfl : (1:ℤ) ≤ ⌊(a - p / 100 * t) / (p / 100)⌋ :=
      Int.le_floor.mpr (by exact_mod_cast hX1)
    refine ⟨⟨(max 0 ⌊(a - p / 100 * t) / (p / 100)⌋).toNat, ?_,
      canBunk_safe_val a t p ht hp0 hsafe⟩, ?_⟩
    · rw [max_eq_right (by omega : (0:ℤ) ≤ ⌊(a - p / 100 * t) / (p / 100)⌋)]
      omega
    · rw [calculateAttendance_safe_eval a t p ht hsafe]

/-- Witness for `exactly_one_positive_amended` at `attended = 3`,
`total = 4`, `requiredPercent = 74`. -/
theorem exactly_one_positive_amended_witness :
    ((3:ℚ) / 4 * 100 < 74 →
      (∃ k : ℕ, 0 < k ∧
        (calculateAttendance 3 4 74).needToAttend = JsNum.fin k) ∧
      (calculateAttendance 3 4 74).canBunk = JsNum.fin 0) ∧
    ((74:ℚ) ≤ 3 / 4 * 100 → (3:ℚ) < 74 / 100 * (4 + 1) →
      (calculateAttendance 3 4 74).canBunk = JsNum.fin 0 ∧
      (calculateAttendance 3 4 74).needToAttend = JsNum.fin 0) ∧
    ((74:ℚ) / 100 * (4 + 1) ≤ 3 →
      (∃ k : ℕ, 0 < k ∧
        (calculateAttendance 3 4 74).canBunk = JsNum.fin k) ∧
      (calculateAttendance 3 4 74).needToAttend = JsNum.fin 0) :=
  exactly_one_positive_amended 3 4 74 (by norm_num) (by norm_num)
    (by norm_num) (by norm_num) (by norm_num)

/-- C7: holding `total > 0` and `0 < requiredPercent < 100` fixed,
`canBunk` is non-decreasing and `needToAttend` non-increasing in
`attended`, including across the switch from the unsafe to the safe
branch. -/
theorem monotone_in_attended (a1 a2 t p : ℚ) (ht : 0 < t) (hp0 : 0 < p)
    (hp100 : p < 100) (ha1 : 0 ≤ a1) (h12 : a1 ≤ a2) (ha2 : a2 ≤ t) :
    (∃ k1 k2 : ℕ,
      (calculateAttendance a1 t p).canBunk = JsNum.fin k1 ∧
      (calculateAttendance a2 t p).canBunk = JsNum.fin k2 ∧ k1 ≤ k2) ∧
    (∃ m1 m2 : ℕ,
      (calculateAttendance a1 t p).needToAttend = JsNum.fin m1 ∧
      (calculateAttendance a2 t p).needToAttend = JsNum.fin m2 ∧
      m2 ≤ m1) := by
  have hr : (0:ℚ) < p / 100 := by positivity
  have hr1 : (0:ℚ) < 1 - p / 100 := by linarith
  by_cases h1 : p ≤ a1 / t * 100
  · have h2 : p ≤ a2 / t * 100 := by
      refine le_trans h1 ?_
      have hdiv : a1 / t ≤ a2 / t := (div_le_div_right ht).mpr h12
      nlinarith
    constructor
    · refine ⟨(max 0 ⌊(a1 - p / 100 * t) / (p / 100)⌋).toNat,
        (max 0 ⌊(a2 - p / 100 * t) / (p / 100)⌋).toNat,
        canBunk_safe_val a1 t p ht hp0 h1,
        canBunk_safe_val a2 t p ht hp0 h2, ?_⟩
      apply Int.toNat_le_toNat
      apply max_le_max le_rfl
      apply Int.floor_mono
      exact (div_le_div_right hr).mpr (by linarith)
    · refine ⟨0, 0, ?_, ?_, le_rfl⟩
      · simp [calculateAttendance_safe_eval a1 t p ht h1]
      · simp [calculateAttendance_safe_eval a2 t p ht h2]
  · by_cases h2 : p ≤ a2 / t * 100
    · constructor
      · refine ⟨0, (max 0 ⌊(a2 - p / 100 * t) / (p / 100)⌋).toNat, ?_,
          canBunk_safe_val a2 t p ht hp0 h2, Nat.zero_le _⟩
        simp [calculateAttendance_unsafe_eval a1 t p ht (not_le.mp h1)]
      · refine ⟨(max 0 ⌈(p / 100 * t - a1) / (1 - p / 100)⌉).toNat, 0,
          need_unsafe_val a1 t p ht hp100 (not_le.mp h1), ?_, Nat.zero_le _⟩
        simp [calculateAttendance_safe_eval a2 t p ht h2]
    · constructor
      · refine ⟨0, 0, ?_, ?_, le_rfl⟩
        · simp [calculateAttendance_unsafe_eval a1 t p ht (not_le.mp h1)]
        · simp [calculateAttendance_unsafe_eval a2 t p ht (not_le.mp h2)]
      · refine ⟨(max 0 ⌈(p / 100 * t - a1) / (1 - p / 100)⌉).toNat,
          (max 0 ⌈(p / 100 * t - a2) / (1 - p / 100)⌉).toNat,
          need_unsafe_val a1 t p ht hp100 (not_le.mp h1),
          need_unsafe_val a2 t p ht hp100 (not_le.mp h2), ?_⟩
        apply Int.toNat_le_toNat
        apply max_le_max le_rfl
        apply Int.ceil_mono
        exact (div_le_div_right hr1).mpr (by linarith)

/-- Witness for `monotone_in_attended` at `attended = 50` and `80`,
`total = 100`, `requiredPercent = 75` (crosses from unsafe to safe). -/
theorem monotone_in_attended_witness :
    (∃ k1 k2 : ℕ,
      (calculateAttendance 50 100 75).canBunk = JsNum.fin k1 ∧
      (calculateAttendance 80 100 75).canBunk = JsNum.fin k2 ∧ k1 ≤ k2) ∧
    (∃ m1 m2 : ℕ,
      (calculateAttendance 50 100 75).needToAttend = JsNum.fin m1 ∧
      (calculateAttendance 80 100 75).needToAttend = JsNum.fin m2 ∧
      m2 ≤ m1) :=
  monotone_in_attended 50 80 100 75 (by norm_num) (by norm_num)
    (by norm_num) (by norm_num) (by norm_num) (by norm_num)

/-- C8: for `total > 0` the returned `currentPercent` is
`attended/total*100` rounded to two decimal places, while the safe/unsafe
branch is selected by comparing the unrounded `attended/total*100` with
`requiredPercent` at full precision: the whole result record is determined
by that full-precision comparison, and rounding affects only the displayed
field. -/
theorem rounding_display_only (a t p : ℚ) (ht : 0 < t) :
    (calculateAttendance a t p).currentPercent = toFixed2 (a / t * 100) ∧
    calculateAttendance a t p =
      (if p ≤ a / t * 100 then
        { currentPercent := toFixed2 (a / t * 100)
          canBunk := jsClampPos (jsFloor (jsDiv (a - p / 100 * t) (p / 100)))
          needToAttend := JsNum.fin 0
          message := "You are safe. You can bunk around " ++
            jsNumToStr
              (jsClampPos (jsFloor (jsDiv (a - p / 100 * t) (p / 100)))) ++
            " classes." }
      else
        { currentPercent := toFixed2 (a / t * 100)
          canBunk := JsNum.fin 0
          needToAttend :=
            jsClampPos (jsCeil (jsDiv (p / 100 * t - a) (1 - p / 100)))
          message := "You need to attend around " ++
            jsNumToStr
              (jsClampPos (jsCeil (jsDiv (p / 100 * t - a) (1 - p / 100)))) ++
            " more classes to reach " ++ toString p ++ "%." }) := by
  by_cases hsafe : p ≤ a / t * 100
  · rw [if_pos hsafe, calculateAttendance_safe_eval a t p ht hsafe]
    exact ⟨rfl, rfl⟩
  · rw [if_neg hsafe,
      calculateAttendance_unsafe_eval a t p ht (not_le.mp hsafe)]
    exact ⟨rfl, rfl⟩

/-- Witness for `rounding_display_only` at `attended = 1`, `total = 3`,
`requiredPercent = 75` (a percentage that actually needs rounding). -/
theorem rounding_display_only_witness :
    (calculateAttendance 1 3 75).currentPercent = toFixed2 ((1:ℚ) / 3 * 100) ∧
    calculateAttendance 1 3 75 =
      (if (75:ℚ) ≤ 1 / 3 * 100 then
        { currentPercent := toFixed2 ((1:ℚ) / 3 * 100)
          canBunk :=
            jsClampPos (jsFloor (jsDiv ((1:ℚ) - 75 / 100 * 3) (75 / 100)))
          needToAttend := JsNum.fin 0
          message := "You are safe. You can bunk around " ++
            jsNumToStr
              (jsClampPos
                (jsFloor (jsDiv ((1:ℚ) - 75 / 100 * 3) (75 / 100)))) ++
            " classes." }
      else
        { currentPercent := toFixed2 ((1:ℚ) / 3 * 100)
          canBunk := JsNum.fin 0
          needToAttend :=
            jsClampPos
              (jsCeil (jsDiv ((75:ℚ) / 100 * 3 - 1) (1 - 75 / 100)))
          message := "You need to attend around " ++
            jsNumToStr
              (jsClampPos
                (jsCeil (jsDiv ((75:ℚ) / 100 * 3 - 1) (1 - 75 / 100)))) ++
            " more classes to reach " ++ toString (75:ℚ) ++ "%." }) :=
  rounding_display_only 1 3 75 (by norm_num)

/-! Model of the `POST /api/subjects` handler (server file, lines
96-122).  Request-body fields are JSON/JavaScript values; the handler
applies JavaScript truthiness (`!subjectName`), loose null comparison
(`total == null`, true exactly for `null` and `undefined`) and the
default `requiredPercent || 75`.  The persistence layer is an external
collaborator: a passing request is modelled as creating a subject with
exactly the field values the handler passes to `Subject.create`. -/

/-- A JavaScript value as it can appear in a parsed request-body field. -/
inductive JsValue where
  | undef
  | null
  | num (q : ℚ)
  | str (s : String)
  | boolean (b : Bool)
deriving DecidableEq, Repr

/-- JavaScript truthiness test (the values here that are falsy:
`undefined`, `null`, `0`, `""`, `false`). -/
def jsFalsy : JsValue → Bool
  | JsValue.undef => true
  | JsValue.null => true
  | JsValue.num q => decide (q = 0)
  | JsValue.str s => decide (s = "")
  | JsValue.boolean b => !b

/-- The loose comparison `x == null`: true exactly for `null` and
`undefined`. -/
def looseEqNull : JsValue → Bool
  | JsValue.undef => true
  | JsValue.null => true
  | _ => false

/-- JavaScript `a || b`: `b` when `a` is falsy, else `a`. -/
def jsOr (v d : JsValue) : JsValue :=
  if jsFalsy v then d else v

/-- The destructured request body of `POST /api/subjects`. -/
structure SubjectBody where
  subjectName : JsValue
  total : JsValue
  attended : JsValue
  requiredPercent : JsValue
deriving DecidableEq, Repr

/-- The observable outcome of the handler: a 400 error response, or a 201
response after creating a subject with the given field values. -/
inductive PostResponse where
  | badRequest (status : Nat) (error : String)
  | created (status : Nat)
      (subjectName total attended requiredPercent : JsValue)
deriving DecidableEq, Repr

/-- Shallow embedding of the `POST /api/subjects` handler (lines
96-122): reject with 400 when `!subjectName || total == null ||
attended == null`, otherwise create the subject with
`requiredPercent: requiredPercent || 75` and respond 201. -/
def postSubjects (b : SubjectBody) : PostResponse :=
  if jsFalsy b.subjectName || looseEqNull b.total || looseEqNull b.attended
  then
    PostResponse.badRequest 400 "Missing required fields"
  else
    PostResponse.created 201 b.subjectName b.total b.attended
      (jsOr b.requiredPercent (JsValue.num 75))

lemma jsFalsy_iff (v : JsValue) :
    jsFalsy v = true ↔
      v = JsValue.undef ∨ v = JsValue.null ∨ v = JsValue.num 0 ∨
      v = JsValue.str "" ∨ v = JsValue.boolean false := by
  cases v <;> simp [jsFalsy]

lemma looseEqNull_iff (v : JsValue) :
    looseEqNull v = true ↔ v = JsValue.undef ∨ v = JsValue.null := by
  cases v <;> simp [looseEqNull]

/-- C9: a `POST /api/subjects` body that passes the required-fields check
but carries a falsy `requiredPercent` creates the subject with
`requiredPercent = 75`; and no body whatsoever can create a subject whose
stored `requiredPercent` value is the number 0 through this endpoint. -/
theorem falsy_requiredPercent_defaults (b : SubjectBody)
    (hpass : (jsFalsy b.subjectName || looseEqNull b.total ||
      looseEqNull b.attended) = false)
    (hfalsy : jsFalsy b.requiredPercent = true) :
    postSubjects b =
      PostResponse.created 201 b.subjectName b.total b.attended
        (JsValue.num 75) ∧
    ∀ b' : SubjectBody, ∀ n t a rp : JsValue,
      postSubjects b' = PostResponse.created 201 n t a rp →
      rp ≠ JsValue.num 0 := by
  constructor
  · rw [postSubjects, hpass]
    simp only [Bool.false_eq_true, if_false, jsOr, hfalsy, if_true]
  · intro b' n t a rp hcr
    rw [postSubjects] at hcr
    by_cases hchk : (jsFalsy b'.subjectName || looseEqNull b'.total ||
        looseEqNull b'.attended) = true
    · rw [hchk] at hcr
      simp at hcr
    · rw [Bool.not_eq_true] at hchk
      rw [hchk] at hcr
      simp only [Bool.false_eq_true, if_false, PostResponse.created.injEq]
        at hcr
      obtain ⟨-, -, -, -, hrp⟩ := hcr
      subst hrp
      rw [jsOr]
      by_cases hf : jsFalsy b'.requiredPercent = true
      · rw [hf]
        simp
      · rw [Bool.not_eq_true] at hf
        rw [hf]
        simp only [Bool.false_eq_true, if_false]
        intro h0
        rw [h0] at hf
        simp [jsFalsy] at hf

/-- Witness for `falsy_requiredPercent_defaults` with body
`subjectName = "Math"`, `total = 10`, `attended = 8`,
`requiredPercent = null`. -/
theorem falsy_requiredPercent_defaults_witness :
    postSubjects
        { subjectName := JsValue.str "Math", total := JsValue.num 10,
          attended := JsValue.num 8, requiredPercent := JsValue.null } =
      PostResponse.created 201 (JsValue.str "Math") (JsValue.num 10)
        (JsValue.num 8) (JsValue.num 75) ∧
    ∀ b' : SubjectBody, ∀ n t a rp : JsValue,
      postSubjects b' = PostResponse.created 201 n t a rp →
      rp ≠ JsValue.num 0 :=
  falsy_requiredPercent_defaults
    { subjectName := JsValue.str "Math", total := JsValue.num 10,
      attended := JsValue.num 8, requiredPercent := JsValue.null }
    (by simp [jsFalsy, looseEqNull]) (by simp [jsFalsy])

/-- C10: the handler responds 400 `"Missing required fields"` exactly when
`subjectName` is absent or falsy or `total`/`attended` is
`null`/`undefined`; bodies with `total = 0` and `attended = 0` (and a
truthy `subjectName`) pass the check and create a subject; and no subject
is created on the 400 path. -/
theorem missing_fields_check (b : SubjectBody) :
    (postSubjects b = PostResponse.badRequest 400 "Missing required fields"
      ↔
      (b.subjectName = JsValue.undef ∨ b.subjectName = JsValue.null ∨
        b.subjectName = JsValue.num 0 ∨ b.subjectName = JsValue.str "" ∨
        b.subjectName = JsValue.boolean false ∨
        b.total = JsValue.undef ∨ b.total = JsValue.null ∨
        b.attended = JsValue.undef ∨ b.attended = JsValue.null)) ∧
    (b.total = JsValue.num 0 → b.attended = JsValue.num 0 →
      jsFalsy b.subjectName = false →
      ∃ rp : JsValue,
        postSubjects b =
          PostResponse.created 201 b.subjectName b.total b.attended rp) ∧
    (postSubjects b = PostResponse.badRequest 400 "Missing required fields"
      →
      ∀ n t a rp : JsValue,
        postSubjects b ≠ PostResponse.created 201 n t a rp) := by
  refine ⟨?_, ?_, ?_⟩
  · by_cases hchk : (jsFalsy b.subjectName || looseEqNull b.total ||
        looseEqNull b.attended) = true
    · rw [postSubjects, hchk]
      simp only [if_true, true_iff]
      rcases Bool.or_eq_true_iff.mp hchk with h | h
      · rcases Bool.or_eq_true_iff.mp h with h' | h'
        · rcases (jsFalsy_iff _).mp h' with h'' | h'' | h'' | h'' | h'' <;>
            tauto
        · rcases (looseEqNull_iff _).mp h' with h'' | h'' <;> tauto
      · rcases (looseEqNull_iff _).mp h with h'' | h'' <;> tauto
    · rw [Bool.not_eq_true] at hchk
      rw [postSubjects, hchk]
      simp only [Bool.false_eq_true, if_false]
      constructor
      · intro h
        exact absurd h (by simp)
      · intro h
        exfalso
        have h1 := hchk
        simp only [Bool.or_eq_false_iff] at h1
        obtain ⟨⟨hn, htol⟩, hatl⟩ := h1
        rcases h with h' | h' | h' | h' | h' | h' | h' | h' | h'
        · rw [h'] at hn; simp [jsFalsy] at hn
        · rw [h'] at hn; simp [jsFalsy] at hn
        · rw [h'] at hn; simp [jsFalsy] at hn
        · rw [h'] at hn; simp [jsFalsy] at hn
        · rw [h'] at hn; simp [jsFalsy] at hn
        · rw [h'] at htol; simp [looseEqNull] at htol
        · rw [h'] at htol; simp [looseEqNull] at htol
        · rw [h'] at hatl; simp [looseEqNull] at hatl
        · rw [h'] at hatl; simp [looseEqNull] at hatl
  · intro htot hatt hname
    refine ⟨jsOr b.requiredPercent (JsValue.num 75), ?_⟩
    rw [postSubjects, hname, htot, hatt]
    simp [looseEqNull]
  · intro h400 n t a rp hcr
    rw [h400] at hcr
    exact absurd hcr (by simp)

/-- Witness for `missing_fields_check` with body `subjectName = "Math"`,
`total = 0`, `attended = 0`, `requiredPercent = undefined`. -/
theorem missing_fields_check_witness :
    (postSubjects
        { subjectName := JsValue.str "Math", total := JsValue.num 0,
          attended := JsValue.num 0, requiredPercent := JsValue.undef } =
        PostResponse.badRequest 400 "Missing required fields" ↔
      (JsValue.str "Math" = JsValue.undef ∨
        JsValue.str "Math" = JsValue.null ∨
        JsValue.str "Math" = JsValue.num 0 ∨
        JsValue.str "Math" = JsValue.str "" ∨
        JsValue.str "Math" = JsValue.boolean false ∨
        JsValue.num 0 = JsValue.undef ∨ JsValue.num 0 = JsValue.null ∨
        JsValue.num 0 = JsValue.undef ∨ JsValue.num 0 = JsValue.null)) ∧
    (JsValue.num 0 = JsValue.num 0 → JsValue.num 0 = JsValue.num 0 →
      jsFalsy (JsValue.str "Math") = false →
      ∃ rp : JsValue,
        postSubjects
            { subjectName := JsValue.str "Math", total := JsValue.num 0,
              attended := JsValue.num 0,
              requiredPercent := JsValue.undef } =
          PostResponse.created 201 (JsValue.str "Math") (JsValue.num 0)
            (JsValue.num 0) rp) ∧
    (postSubjects
        { subjectName := JsValue.str "Math", total := JsValue.num 0,
          attended := JsValue.num 0, requiredPercent := JsValue.undef } =
        PostResponse.badRequest 400 "Missing required fields" →
      ∀ n t a rp : JsValue,
        postSubjects
            { subjectName := JsValue.str "Math", total := JsValue.num 0,
              attended := JsValue.num 0,
              requiredPercent := JsValue.undef } ≠
          PostResponse.created 201 n t a rp) :=
  missing_fields_check
    { subjectName := JsValue.str "Math", total := JsValue.num 0,
      attended := JsValue.num 0, requiredPercent := JsValue.undef }
